import Mathlib

/-!
Shallow embedding of the hardhat-explorer-web3 repository (a React dashboard
for a local Hardhat Ethereum node) and proofs about the claims of its
specification.

The embedding covers the three data-fetching routines the claims are about:

* fetchContractDetails in src/components/ContractDetailsModal.tsx
  (the contract introspector),
* fetchTransactions of the TransactionModal in the same file
  (the transaction history scanner),
* connectToNode in src/hooks/useHardhatNode.ts (the node connector).

The JSON-RPC node is modelled as an explicit environment (bytecode, balances,
per-call probe behaviour, blocks); the asynchronous timeout races of the
source become explicit settlement times compared against the timeout constants.
JavaScript floating point is not modelled: parseFloat(...).toFixed(4) is
modelled as exact decimal rounding (noted at the definition).
-/

/-! ## Decimal / hex string rendering helpers

These model the JavaScript number-to-string and ethers.js formatting
primitives the source relies on (String(n), BigNumber.toString(),
ethers.utils.formatEther, ethers.utils.hexlify). -/

/-- Fuel-driven accumulation of the decimal digits of a natural number
(most significant first) in front of an accumulator; structural recursion on
the fuel keeps the definition kernel-reducible. -/
def decDigitsCore : Nat → Nat → List Char → List Char
  | _, 0, acc => acc
  | 0, _ + 1, acc => acc
  | fuel + 1, n + 1, acc =>
      decDigitsCore fuel ((n + 1) / 10) (Nat.digitChar ((n + 1) % 10) :: acc)

/-- Accumulate the decimal digits of a natural number (most significant first)
in front of an accumulator; n itself is always enough fuel because the value
strictly decreases at each division by ten. -/
def decDigitsAux (n : Nat) (acc : List Char) : List Char := decDigitsCore n n acc

/-- Decimal rendering of a natural number, as JavaScript String(n) produces
for a nonnegative integer. -/
def natDecimal (n : Nat) : String :=
  if n = 0 then "0" else ⟨decDigitsAux n []⟩

/-- Decimal rendering of an integer, as JavaScript String(n) or
BigNumber.toString() produces. -/
def intDecimal (i : Int) : String :=
  if i < 0 then "-" ++ natDecimal i.natAbs else natDecimal i.toNat

/-- Exactly w decimal digits of n, most significant first (left zero padded;
only the w low digits of n are rendered). -/
def fixedDigits : Nat → Nat → List Char
  | 0, _ => []
  | w + 1, n => fixedDigits w (n / 10) ++ [Nat.digitChar (n % 10)]

/-- Accumulate the hexadecimal digits (lowercase) of a natural number. -/
def hexDigitsAux : Nat → List Char → List Char
  | 0, acc => acc
  | n + 1, acc => hexDigitsAux ((n + 1) / 16) (Nat.digitChar ((n + 1) % 16) :: acc)
decreasing_by exact Nat.div_lt_self (Nat.succ_pos n) (by norm_num)

/-- Model of ethers.utils.hexlify on a nonnegative BigNumber: 0x followed by
the minimal hex digits, left padded with one 0 to an even digit count. -/
def hexlify (n : Nat) : String :=
  let ds := if n = 0 then ['0'] else hexDigitsAux n []
  let ds := if ds.length % 2 = 1 then '0' :: ds else ds
  "0x" ++ ⟨ds⟩

/-- Model of ethers.utils.formatEther on a nonnegative wei amount: the integer
ether part, a dot, and the 18 fractional digits with trailing zeros removed
(at least one fractional digit is kept, so 0 renders as 0.0). -/
def formatEtherNat (wei : Nat) : String :=
  let ip := wei / 10 ^ 18
  let fp := wei % 10 ^ 18
  let trimmed := ((fixedDigits 18 fp).reverse.dropWhile (· = '0')).reverse
  natDecimal ip ++ "." ++ (if trimmed.isEmpty then "0" else ⟨trimmed⟩)

/-- Model of ethers.utils.formatEther on a BigNumber of either sign. -/
def intFormatEther (i : Int) : String :=
  if i < 0 then "-" ++ formatEtherNat i.natAbs else formatEtherNat i.toNat

/-- Exponential-notation rendering (ECMA-262 ToString of a number whose
decimal exponent exceeds 21) of the exact value wei / 10^18: the significant
decimal digits with trailing zeros stripped, a dot after the first digit
when more than one remains, then e+ and the decimal exponent. The
double-precision rounding of the preceding parseFloat is not modelled (it is
exact at the inputs used here, such as powers of ten). -/
def jsExpOfWei (wei : Nat) : String :=
  let ds := decDigitsAux wei []
  let exp := ds.length - 19
  let sig := (ds.reverse.dropWhile (· = '0')).reverse
  match sig with
  | [] => "0e+0"
  | [d] => String.mk [d] ++ "e+" ++ natDecimal exp
  | d :: rest => String.mk [d] ++ "." ++ String.mk rest ++ "e+" ++ natDecimal exp

/-- Model of parseFloat(ethers.utils.formatEther(wei)).toFixed(4) from the
source. Below 10^21 ether (wei below 10^39) toFixed rounds to four decimal
places, modelled as exact decimal rounding of wei / 10^18 rendered with
exactly four fractional digits; at or above 10^21 ECMA-262 toFixed returns
ToString(x) instead, which lands in exponential notation (for example
1e+21), modelled by jsExpOfWei. The double-precision rounding of parseFloat
is modelled as exact. -/
def toFixed4OfWei (wei : Nat) : String :=
  if wei < 10 ^ 39 then
    let scaled := (wei + 5 * 10 ^ 13) / 10 ^ 14
    natDecimal (scaled / 10 ^ 4) ++ "." ++ ⟨fixedDigits 4 (scaled % 10 ^ 4)⟩
  else jsExpOfWei wei

/-! ## Contract introspector (fetchContractDetails) -/

/-- Decoded JavaScript values returned by ethers.js view-function calls, as
far as formatValue in ContractDetailsModal.tsx distinguishes them. The obj
constructor carries the result of JSON.stringify on the object when it
succeeds (none models an object JSON.stringify throws on, which the source
renders through String(value)). -/
inductive JsValue where
  | str : String → JsValue
  | num : Int → JsValue
  | big : Int → JsValue
  | bool : Bool → JsValue
  | arr : List JsValue → JsValue
  | obj : Option String → JsValue
  | undef : JsValue
  | null : JsValue

/-- Model of formatValue in ContractDetailsModal.tsx: null and undefined
render as the string null; a BigNumber of a uint/int type renders through
formatEther with an ETH suffix and otherwise through toString; arrays render
elementwise with an empty type; objects render through JSON.stringify (or
String(value) when that throws); primitives render through String(value). -/
def formatValue : JsValue → String → String
  | .undef, _ => "null"
  | .null, _ => "null"
  | .big v, ty =>
      if ty.startsWith "uint" || ty.startsWith "int" then intFormatEther v ++ " ETH"
      else intDecimal v
  | .arr vs, _ =>
      "[" ++ String.intercalate ", " (vs.attach.map (fun x => formatValue x.1 "")) ++ "]"
  | .obj (some j), _ => j
  | .obj none, _ => "[object Object]"
  | .str s, _ => s
  | .num n, _ => intDecimal n
  | .bool b, _ => if b then "true" else "false"
decreasing_by
  have := List.sizeOf_lt_of_mem x.2
  simp only [JsValue.arr.sizeOf_spec]
  omega

/-- Behaviour of one contract view call in the modelled environment: the
value or error it eventually settles with, and the number of milliseconds
until settlement (none models a call that never settles). -/
structure ProbeBehavior where
  outcome : Except Unit JsValue
  time : Option Nat

/-- Model of the JavaScript test result !== undefined (negated). -/
def isUndefined : JsValue → Bool
  | .undef => true
  | _ => false

/-- Environment a single run of fetchContractDetails observes through the
JSON-RPC provider: the bytecode at the address, its wei balance, and the
behaviour of each named view-function call on the generic-ABI contract. -/
structure ChainEnv where
  code : String
  balance : Nat
  probes : String → ProbeBehavior

/-- Timeout in milliseconds of the per-probe race in tryFunction
(setTimeout(..., 1000)). -/
def probeTimeoutMs : Nat := 1000

/-- Timeout in milliseconds of the getDonationsCount race
(setTimeout(..., 500)). -/
def donationTimeoutMs : Nat := 500

/-- Outcome of the Promise.race inside tryFunction: some value when the call
settles successfully within the 1000 ms timeout with a defined value, none
when it errors, times out, never settles, or resolves with undefined. -/
def tryFunctionResult (env : ChainEnv) (nm : String) : Option JsValue :=
  match (env.probes nm).time with
  | some t =>
      if t < probeTimeoutMs then
        match (env.probes nm).outcome with
        | .ok v => if isUndefined v then none else some v
        | .error _ => none
      else none
  | none => none

/-- One discovered state variable, as the ContractVariable interface of
ContractDetailsModal.tsx (every value the source ever stores is a string). -/
structure ContractVariable where
  name : String
  value : String
  type : String
  constant : Bool
deriving DecidableEq

/-- One named and typed ABI parameter. -/
structure ABIParam where
  name : String
  type : String
deriving DecidableEq

/-- One discovered function, as the ContractFunction interface of
ContractDetailsModal.tsx. -/
structure ContractFunction where
  name : String
  inputs : List ABIParam
  outputs : List ABIParam
  stateMutability : String
deriving DecidableEq

/-- Accumulated introspection state: the stateVars and discoveredFunctions
arrays of fetchContractDetails. -/
structure IntroState where
  stateVars : List ContractVariable
  discoveredFunctions : List ContractFunction
deriving DecidableEq

/-- Model of one awaited tryFunction(name, type) call: on success it pushes
a variable entry (with the formatted value) and a discovered-function entry;
on error, timeout or undefined it leaves the state unchanged. -/
def tryFunction (env : ChainEnv) (st : IntroState) (nm ty : String) : IntroState :=
  match tryFunctionResult env nm with
  | some v =>
      { stateVars := st.stateVars ++ [⟨nm, formatValue v ty, ty, false⟩],
        discoveredFunctions :=
          st.discoveredFunctions ++ [⟨nm, [], [⟨"", ty⟩], "view"⟩] }
  | none => st

/-- Initial stateVars of fetchContractDetails: the formatted native balance
pushed first, then the contract address. -/
def initialVars (contractAddress : String) (env : ChainEnv) : List ContractVariable :=
  [⟨"balance", formatEtherNat env.balance ++ " ETH", "uint256", false⟩,
   ⟨"address", contractAddress, "address", true⟩]

/-- State after the five awaited tryFunction calls of fetchContractDetails,
in source order: name, symbol, decimals, totalSupply, owner. -/
def probeState (contractAddress : String) (env : ChainEnv) : IntroState :=
  tryFunction env
    (tryFunction env
      (tryFunction env
        (tryFunction env
          (tryFunction env ⟨initialVars contractAddress env, []⟩ "name" "string")
          "symbol" "string")
        "decimals" "uint8")
      "totalSupply" "uint256")
    "owner" "address"

/-- Model of discoveredFunctions.some(f => f.name === nm). -/
def hasDiscovered (st : IntroState) (nm : String) : Bool :=
  st.discoveredFunctions.any (fun f => f.name == nm)

/-- Contract type classification of fetchContractDetails: ERC20 Token when
name, symbol and decimals were all discovered, else Ownable Contract when
owner was discovered, else Unknown Contract. -/
def contractTypeOf (st : IntroState) : String :=
  if hasDiscovered st "name" && hasDiscovered st "symbol" && hasDiscovered st "decimals" then
    "ERC20 Token"
  else if hasDiscovered st "owner" then "Ownable Contract"
  else "Unknown Contract"

/-- Model of the getDonationsCount detection race: true exactly when the call
settles successfully within the 500 ms timeout (a rejection within the
timeout is mapped to false by the attached catch, and the timer resolves the
race to false otherwise). -/
def donationDetected (env : ChainEnv) : Bool :=
  match (env.probes "getDonationsCount").time with
  | some t =>
      if t < donationTimeoutMs then
        match (env.probes "getDonationsCount").outcome with
        | .ok _ => true
        | .error _ => false
      else false
  | none => false

/-- Result surfaced by one run of fetchContractDetails: either the error
string stored by the catch handler, or the final variables and
discovered-functions lists. -/
inductive FetchResult where
  | ok : List ContractVariable → List ContractFunction → FetchResult
  | error : String → FetchResult
deriving DecidableEq

/-- Names of the contract calls fetchContractDetails awaits, in source
order: the five tryFunction probes and the getDonationsCount detection. -/
def probeCallOrder : List String :=
  ["name", "symbol", "decimals", "totalSupply", "owner", "getDonationsCount"]

/-- The generic ABI catalog passed to the ethers.Contract constructor in
fetchContractDetails, verbatim from the source (including the repeated
balanceOf entry). -/
def genericABI : List String :=
  ["function name() view returns (string)",
   "function symbol() view returns (string)",
   "function decimals() view returns (uint8)",
   "function totalSupply() view returns (uint256)",
   "function balanceOf(address) view returns (uint256)",
   "function allowance(address,address) view returns (uint256)",
   "function ownerOf(uint256) view returns (address)",
   "function tokenURI(uint256) view returns (string)",
   "function balanceOf(address) view returns (uint256)",
   "function getApproved(uint256) view returns (address)",
   "function isApprovedForAll(address,address) view returns (bool)",
   "function owner() view returns (address)",
   "function getOwner() view returns (address)",
   "function isOwner() view returns (bool)",
   "function getVotes(address) view returns (uint256)",
   "function delegates(address) view returns (address)",
   "function proposalCount() view returns (uint256)",
   "function getProposal(uint256) view returns (uint256,address,string,uint256)",
   "function rewardRate() view returns (uint256)",
   "function totalStaked() view returns (uint256)",
   "function earned(address) view returns (uint256)",
   "function getReward() view returns (uint256)",
   "function getReserves() view returns (uint112,uint112,uint32)",
   "function token0() view returns (address)",
   "function token1() view returns (address)",
   "function getAmountOut(uint256,address,address) view returns (uint256)",
   "function minDonation() view returns (uint256)",
   "function maxDonation() view returns (uint256)",
   "function getDonationsCount() view returns (uint256)",
   "function getDonation(uint256) view returns (address,uint256,uint256)",
   "function getData(uint256) view returns (bytes)",
   "function getCount() view returns (uint256)",
   "function getRecord(uint256) view returns (address,uint256,uint256,string)",
   "function getItem(uint256) view returns (string,uint256,bool)",
   "function getValue(string) view returns (string)",
   "function getAddressValue(string) view returns (address)",
   "function getUintValue(string) view returns (uint256)",
   "function getBoolValue(string) view returns (bool)"]

/-- Function name of one human-readable ABI signature of the catalog: the
characters after the leading keyword and space, up to the opening paren. -/
def abiFunctionName (sig : String) : String :=
  ⟨(sig.data.drop 9).takeWhile (· ≠ '(')⟩

/-- Model of one full run of fetchContractDetails. The first component is
the surfaced result (the two throw sites become the error strings the catch
handler stores); the second component is the list of contract calls issued,
in order, used to state which probes were attempted. The addrOk argument
stands for ethers.utils.isAddress(contractAddress), a library predicate not
modelled further. -/
def fetchContractDetails (addrOk : Bool) (contractAddress : String) (env : ChainEnv) :
    FetchResult × List String :=
  if addrOk then
    if env.code = "0x" then
      (.error "Failed to load contract details: No contract code at this address", [])
    else
      let st := probeState contractAddress env
      let vars1 := st.stateVars ++ [⟨"contractType", contractTypeOf st, "string", true⟩]
      let vars2 :=
        if donationDetected env then
          vars1 ++ [⟨"contractType", "Donation Contract", "string", true⟩]
        else vars1
      (.ok vars2 st.discoveredFunctions, probeCallOrder)
  else
    (.error "Failed to load contract details: Invalid contract address format", [])

/-! ## Node connector (useHardhatNode.ts) -/

/-- Base private key of the well-known Hardhat test accounts, as the
BigNumber literal in useHardhatNode.ts. -/
def hardhatBaseKey : Nat :=
  0xac0974bec39a17e36ba4a6b4d238ff944bacb478cbed5efcae784d7bf4f2ff80

/-- One account entry, as the AccountInfo interface of useHardhatNode.ts. -/
structure AccountInfo where
  address : String
  privateKey : String
  balance : String
deriving DecidableEq

/-- Node state connectToNode observes through the JSON-RPC provider. -/
structure NodeEnv where
  accounts : List String
  balances : String → Nat
  networkChainId : Nat
  blockNumber : Nat

/-- Model of accounts.map(async (address, index) => ...) in connectToNode:
an index-carrying map that derives each private key as the base key plus the
positional index and formats each balance to four decimals. -/
def buildAccounts (balances : String → Nat) : Nat → List String → List AccountInfo
  | _, [] => []
  | i, address :: rest =>
      ⟨address, hexlify (hardhatBaseKey + i), toFixed4OfWei (balances address)⟩ ::
        buildAccounts balances (i + 1) rest

/-- Model of the JavaScript expression config.chainId || network.chainId in
connectToNode: the configured id wins whenever it is truthy. A falsy
configured id (0, or NaN from an unparsable environment variable) is
modelled as 0. -/
def effectiveChainId (configChainId networkChainId : Nat) : Nat :=
  if configChainId ≠ 0 then configChainId else networkChainId

/-- Data connectToNode stores into its state on success. -/
structure ConnectResult where
  chainId : Nat
  blockNumber : Nat
  accounts : List AccountInfo
deriving DecidableEq

/-- Model of the successful path of connectToNode in useHardhatNode.ts. -/
def connectToNode (configChainId : Nat) (env : NodeEnv) : ConnectResult :=
  { chainId := effectiveChainId configChainId env.networkChainId,
    blockNumber := env.blockNumber,
    accounts := buildAccounts env.balances 0 env.accounts }

/-! ## Transaction history scanner (TransactionModal.fetchTransactions) -/

/-- One transaction as returned inside getBlockWithTransactions: the fields
fetchTransactions reads. A missing to field models a contract creation. -/
structure TxResponse where
  hash : String
  toAddr : Option String
  fromAddr : String
  value : Nat
  blockNumber : Option Nat
deriving DecidableEq

/-- One block as fetchTransactions reads it. -/
structure Block where
  timestamp : Nat
  transactions : List TxResponse

/-- Chain state the scanner observes: the latest block number and the block
returned for each queried number. -/
structure ChainState where
  height : Nat
  blocks : Nat → Block

/-- One formatted transaction, as the Transaction interface of the
TransactionModal. -/
structure Transaction where
  hash : String
  toAddr : Option String
  fromAddr : String
  value : String
  timestamp : Nat
  blockNumber : Nat
deriving DecidableEq

/-- The address filter of fetchTransactions: sender, or receiver when
present, compared case-insensitively against the target address. -/
def txMatches (address : String) (tx : TxResponse) : Bool :=
  tx.fromAddr.toLower == address.toLower ||
    (match tx.toAddr with
     | some t => t.toLower == address.toLower
     | none => false)

/-- Block numbers fetchTransactions queries: fromBlock =
Math.max(0, blockNumber - 100) (natural subtraction), then blockNumber -
fromBlock + 1 consecutive blocks starting at fromBlock. -/
def scannedBlockNumbers (height : Nat) : List Nat :=
  let fromBlock := height - 100
  (List.range (height - fromBlock + 1)).map (fromBlock + ·)

/-- The allTxs array of fetchTransactions: transactions of the scanned
blocks passing the address filter, in block order. -/
def windowMatches (chain : ChainState) (address : String) : List TxResponse :=
  (scannedBlockNumbers chain.height).flatMap
    (fun n => (chain.blocks n).transactions.filter (txMatches address))

/-- Formatting of one matching transaction: the value through formatEther
and the timestamp read from the block fetched at tx.blockNumber || 0. -/
def formatTransaction (chain : ChainState) (tx : TxResponse) : Transaction :=
  let bn := tx.blockNumber.getD 0
  { hash := tx.hash, toAddr := tx.toAddr, fromAddr := tx.fromAddr,
    value := formatEtherNat tx.value,
    timestamp := (chain.blocks bn).timestamp,
    blockNumber := bn }

/-- Comparison function of the final sort (newest block first); the
JavaScript comparator (a, b) => b.blockNumber - a.blockNumber kept stable by
Array.prototype.sort is modelled as a stable merge sort under this relation. -/
def txDescBlock (a b : Transaction) : Bool :=
  decide (b.blockNumber ≤ a.blockNumber)

/-- Model of the full fetchTransactions scan of the TransactionModal. -/
def fetchTransactions (chain : ChainState) (address : String) : List Transaction :=
  (((windowMatches chain address).map (formatTransaction chain)).mergeSort txDescBlock)

/-- Well-formedness of a modelled chain: every transaction inside a scanned
block carries that block's number. -/
def wfChain (chain : ChainState) : Prop :=
  ∀ n ∈ scannedBlockNumbers chain.height,
    ∀ tx ∈ (chain.blocks n).transactions, tx.blockNumber = some n

instance (chain : ChainState) : Decidable (wfChain chain) := by
  unfold wfChain; infer_instance

/-! ## Further definitions used by the statements -/

/-- Environment equal to env except that the call named nm behaves as b. -/
def updateProbe (env : ChainEnv) (nm : String) (b : ProbeBehavior) : ChainEnv :=
  { env with probes := fun s => if s = nm then b else env.probes s }

/-- Default entry for positional list access in statements. -/
def defaultAccount : AccountInfo := ⟨"", "", ""⟩

/-- Probe behaviour where every call rejects immediately: a contract
implementing none of the catalog functions. -/
def allErrorProbes : String → ProbeBehavior := fun _ => ⟨.error (), some 0⟩

/-- A deployed contract (non-empty bytecode) none of whose probed calls
succeeds. -/
def sampleEnv : ChainEnv := ⟨"0x6001", 0, allErrorProbes⟩

/-- An address holding no bytecode. -/
def sampleEmptyEnv : ChainEnv := ⟨"0x", 0, allErrorProbes⟩

/-- Probe behaviour of a well-behaved ERC20 token: name, symbol and decimals
settle quickly with values; every other call rejects. -/
def erc20Probes : String → ProbeBehavior
  | "name" => ⟨.ok (.str "Gold"), some 10⟩
  | "symbol" => ⟨.ok (.str "GLD"), some 20⟩
  | "decimals" => ⟨.ok (.num 18), some 30⟩
  | _ => ⟨.error (), some 0⟩

/-- A deployed ERC20-shaped contract environment. -/
def erc20Env : ChainEnv := ⟨"0x6080", 10 ^ 18, erc20Probes⟩

/-- Node environment whose queried network id (1) differs from the
configured chain id used alongside it. -/
def nodeEnv8 : NodeEnv := ⟨[], fun _ => 0, 1, 7⟩

/-- Node environment reporting 22 accounts, past the 20 well-known keys. -/
def nodeEnvMany : NodeEnv := ⟨List.replicate 22 "0xS", fun _ => 0, 31337, 0⟩

/-- Blocks of a small synthetic chain: the target address sends three
transactions and receives one across the last blocks. -/
def wchainBlocks : Nat → Block
  | 1 => ⟨1111, [⟨"0xh1", some "0xBob", "0xAlice", 10 ^ 18, some 1⟩,
                 ⟨"0xh2", some "0xAlice", "0xCarol", 2 * 10 ^ 18, some 1⟩]⟩
  | 2 => ⟨2222, [⟨"0xh3", none, "0xAlice", 0, some 2⟩]⟩
  | 3 => ⟨3333, [⟨"0xh4", some "0xDave", "0xAlice", 5, some 3⟩,
                 ⟨"0xh5", some "0xDave", "0xCarol", 7, some 3⟩]⟩
  | _ => ⟨0, []⟩

/-- The synthetic chain at height 3. -/
def wchain : ChainState := ⟨3, wchainBlocks⟩

/-! ## Helper lemmas: decimal rendering -/

theorem tryFunctionResult_eq_some {env : ChainEnv} {nm : String} {v : JsValue} {t : Nat}
    (hb : env.probes nm = ⟨.ok v, some t⟩) (ht : t < probeTimeoutMs)
    (hv : isUndefined v = false) : tryFunctionResult env nm = some v := by
  simp [tryFunctionResult, hb, ht, hv]

theorem tryFunctionResult_of_error {env : ChainEnv} {nm : String}
    (h : (env.probes nm).outcome = .error ()) : tryFunctionResult env nm = none := by
  unfold tryFunctionResult
  cases htime : (env.probes nm).time with
  | none => rfl
  | some t => simp [h]

theorem tryFunctionResult_of_not_settled {env : ChainEnv} {nm : String}
    (h : ∀ t, (env.probes nm).time = some t → probeTimeoutMs ≤ t) :
    tryFunctionResult env nm = none := by
  unfold tryFunctionResult
  cases htime : (env.probes nm).time with
  | none => rfl
  | some t => simp [Nat.not_lt.mpr (h t htime)]

theorem donationDetected_of_error {env : ChainEnv}
    (h : (env.probes "getDonationsCount").outcome = .error ()) :
    donationDetected env = false := by
  unfold donationDetected
  cases htime : (env.probes "getDonationsCount").time with
  | none => rfl
  | some t => simp [h]

theorem donationDetected_of_not_settled {env : ChainEnv}
    (h : ∀ t, (env.probes "getDonationsCount").time = some t → donationTimeoutMs ≤ t) :
    donationDetected env = false := by
  unfold donationDetected
  cases htime : (env.probes "getDonationsCount").time with
  | none => rfl
  | some t => simp [Nat.not_lt.mpr (h t htime)]

theorem updateProbe_self (env : ChainEnv) (nm : String) (b : ProbeBehavior) :
    (updateProbe env nm b).probes nm = b := by
  simp [updateProbe]

theorem updateProbe_ne (env : ChainEnv) {nm m : String} (b : ProbeBehavior) (h : m ≠ nm) :
    (updateProbe env nm b).probes m = env.probes m := by
  simp [updateProbe, h]

theorem tryFunctionResult_updateProbe_ne (env : ChainEnv) {nm m : String} (b : ProbeBehavior)
    (h : m ≠ nm) : tryFunctionResult (updateProbe env nm b) m = tryFunctionResult env m := by
  unfold tryFunctionResult
  rw [updateProbe_ne env b h]

theorem donationDetected_updateProbe_ne (env : ChainEnv) {nm : String} (b : ProbeBehavior)
    (h : nm ≠ "getDonationsCount") :
    donationDetected (updateProbe env nm b) = donationDetected env := by
  unfold donationDetected
  rw [updateProbe_ne env b (Ne.symm h)]

theorem tryFunction_of_some {env : ChainEnv} {nm : String} {v : JsValue}
    (st : IntroState) (ty : String) (h : tryFunctionResult env nm = some v) :
    tryFunction env st nm ty =
      ⟨st.stateVars ++ [⟨nm, formatValue v ty, ty, false⟩],
       st.discoveredFunctions ++ [⟨nm, [], [⟨"", ty⟩], "view"⟩]⟩ := by
  simp [tryFunction, h]

theorem tryFunction_of_none {env : ChainEnv} {nm : String}
    (st : IntroState) (ty : String) (h : tryFunctionResult env nm = none) :
    tryFunction env st nm ty = st := by
  simp [tryFunction, h]

theorem mem_stateVars_tryFunction {st : IntroState} {v : ContractVariable}
    (env : ChainEnv) (nm ty : String) (h : v ∈ st.stateVars) :
    v ∈ (tryFunction env st nm ty).stateVars := by
  unfold tryFunction
  cases tryFunctionResult env nm <;> simp [h]

theorem mem_stateVars_of_tryFunction {env : ChainEnv} {st : IntroState}
    {v : ContractVariable} {nm ty : String}
    (h : v ∈ (tryFunction env st nm ty).stateVars) :
    v ∈ st.stateVars ∨ (v.name = nm ∧ tryFunctionResult env nm ≠ none) := by
  unfold tryFunction at h
  cases hh : tryFunctionResult env nm with
  | none => rw [hh] at h; exact .inl h
  | some w =>
    rw [hh] at h
    rcases List.mem_append.mp h with h1 | h1
    · exact .inl h1
    · rcases List.mem_singleton.mp h1 with rfl
      exact .inr ⟨rfl, by simp [hh]⟩

theorem mem_fns_of_tryFunction {env : ChainEnv} {st : IntroState}
    {f : ContractFunction} {nm ty : String}
    (h : f ∈ (tryFunction env st nm ty).discoveredFunctions) :
    f ∈ st.discoveredFunctions ∨ (f.name = nm ∧ tryFunctionResult env nm ≠ none) := by
  unfold tryFunction at h
  cases hh : tryFunctionResult env nm with
  | none => rw [hh] at h; exact .inl h
  | some w =>
    rw [hh] at h
    rcases List.mem_append.mp h with h1 | h1
    · exact .inl h1
    · rcases List.mem_singleton.mp h1 with rfl
      exact .inr ⟨rfl, by simp [hh]⟩

theorem hasDiscovered_mono {st : IntroState} {nm : String}
    (env : ChainEnv) (nm2 ty : String) (h : hasDiscovered st nm = true) :
    hasDiscovered (tryFunction env st nm2 ty) nm = true := by
  unfold tryFunction
  cases tryFunctionResult env nm2 <;> simp_all [hasDiscovered, List.any_append]

theorem hasDiscovered_tryFunction_self {env : ChainEnv} {nm : String} {v : JsValue}
    (st : IntroState) (ty : String) (h : tryFunctionResult env nm = some v) :
    hasDiscovered (tryFunction env st nm ty) nm = true := by
  simp [tryFunction, h, hasDiscovered, List.any_append]

theorem tryFunction_congr {env env' : ChainEnv}
    (h : ∀ m, tryFunctionResult env m = tryFunctionResult env' m) :
    ∀ st nm ty, tryFunction env st nm ty = tryFunction env' st nm ty := by
  intro st nm ty
  unfold tryFunction
  rw [h]

theorem probeState_congr {env env' : ChainEnv}
    (h : ∀ m, tryFunctionResult env m = tryFunctionResult env' m)
    (hbal : env.balance = env'.balance) (contractAddress : String) :
    probeState contractAddress env = probeState contractAddress env' := by
  unfold probeState initialVars
  rw [hbal]
  simp only [tryFunction_congr h]

theorem fetchContractDetails_congr {env env' : ChainEnv}
    (hcode : env.code = env'.code) (hbal : env.balance = env'.balance)
    (h : ∀ m, tryFunctionResult env m = tryFunctionResult env' m)
    (hdon : donationDetected env = donationDetected env')
    (addrOk : Bool) (contractAddress : String) :
    fetchContractDetails addrOk contractAddress env =
      fetchContractDetails addrOk contractAddress env' := by
  unfold fetchContractDetails
  rw [hcode, probeState_congr h hbal contractAddress, hdon]

theorem mem_stateVars_probeState {env : ChainEnv} {v : ContractVariable}
    (contractAddress : String) (h : v ∈ (probeState contractAddress env).stateVars) :
    v ∈ initialVars contractAddress env ∨
      ((v.name = "name" ∨ v.name = "symbol" ∨ v.name = "decimals" ∨
        v.name = "totalSupply" ∨ v.name = "owner") ∧ tryFunctionResult env v.name ≠ none) := by
  unfold probeState at h
  rcases mem_stateVars_of_tryFunction h with h | h5
  · rcases mem_stateVars_of_tryFunction h with h | h4
    · rcases mem_stateVars_of_tryFunction h with h | h3
      · rcases mem_stateVars_of_tryFunction h with h | h2
        · rcases mem_stateVars_of_tryFunction h with h | h1
          · exact .inl h
          · exact .inr ⟨by tauto, h1.1 ▸ h1.2⟩
        · exact .inr ⟨by tauto, h2.1 ▸ h2.2⟩
      · exact .inr ⟨by tauto, h3.1 ▸ h3.2⟩
    · exact .inr ⟨by tauto, h4.1 ▸ h4.2⟩
  · exact .inr ⟨by tauto, h5.1 ▸ h5.2⟩

theorem mem_fns_probeState {env : ChainEnv} {f : ContractFunction}
    (contractAddress : String) (h : f ∈ (probeState contractAddress env).discoveredFunctions) :
    (f.name = "name" ∨ f.name = "symbol" ∨ f.name = "decimals" ∨
      f.name = "totalSupply" ∨ f.name = "owner") ∧ tryFunctionResult env f.name ≠ none := by
  unfold probeState at h
  rcases mem_fns_of_tryFunction h with h | h5
  · rcases mem_fns_of_tryFunction h with h | h4
    · rcases mem_fns_of_tryFunction h with h | h3
      · rcases mem_fns_of_tryFunction h with h | h2
        · rcases mem_fns_of_tryFunction h with h | h1
          · simp at h
          · exact ⟨by tauto, h1.1 ▸ h1.2⟩
        · exact ⟨by tauto, h2.1 ▸ h2.2⟩
      · exact ⟨by tauto, h3.1 ▸ h3.2⟩
    · exact ⟨by tauto, h4.1 ▸ h4.2⟩
  · exact ⟨by tauto, h5.1 ▸ h5.2⟩

theorem contractTypeOf_erc20 {st : IntroState}
    (h1 : hasDiscovered st "name" = true) (h2 : hasDiscovered st "symbol" = true)
    (h3 : hasDiscovered st "decimals" = true) : contractTypeOf st = "ERC20 Token" := by
  unfold contractTypeOf
  rw [h1, h2, h3]
  simp

/-- C5: for every address whose bytecode query returns empty code (0x), the
contract-details fetch fails with the no-contract-code error and issues zero
probe calls against the contract. -/
theorem c5_no_code_error (contractAddress : String) (env : ChainEnv) (h : env.code = "0x") :
    fetchContractDetails true contractAddress env =
      (.error "Failed to load contract details: No contract code at this address", []) := by
  simp [fetchContractDetails, h]

theorem c5_no_code_error_witness :
    sampleEmptyEnv.code = "0x" ∧
      fetchContractDetails true "0xCafe" sampleEmptyEnv =
        (.error "Failed to load contract details: No contract code at this address", []) :=
  ⟨rfl, c5_no_code_error "0xCafe" sampleEmptyEnv rfl⟩

/-- C9: for every introspection that completes without error (valid address,
non-empty bytecode), the variables list contains the non-constant balance
entry, the constant address entry holding the input address, and at least
one constant contractType entry, whatever the probes did. -/
theorem c9_always_core_vars (contractAddress : String) (env : ChainEnv)
    (hcode : env.code ≠ "0x") :
    ∃ vars fns, (fetchContractDetails true contractAddress env).1 = .ok vars fns ∧
      ⟨"balance", formatEtherNat env.balance ++ " ETH", "uint256", false⟩ ∈ vars ∧
      ⟨"address", contractAddress, "address", true⟩ ∈ vars ∧
      ∃ ct, (⟨"contractType", ct, "string", true⟩ : ContractVariable) ∈ vars := by
  have hbal : (⟨"balance", formatEtherNat env.balance ++ " ETH", "uint256", false⟩ :
      ContractVariable) ∈ (probeState contractAddress env).stateVars := by
    unfold probeState
    apply mem_stateVars_tryFunction
    apply mem_stateVars_tryFunction
    apply mem_stateVars_tryFunction
    apply mem_stateVars_tryFunction
    apply mem_stateVars_tryFunction
    simp [initialVars]
  have haddr : (⟨"address", contractAddress, "address", true⟩ :
      ContractVariable) ∈ (probeState contractAddress env).stateVars := by
    unfold probeState
    apply mem_stateVars_tryFunction
    apply mem_stateVars_tryFunction
    apply mem_stateVars_tryFunction
    apply mem_stateVars_tryFunction
    apply mem_stateVars_tryFunction
    simp [initialVars]
  simp only [fetchContractDetails, if_true, if_neg hcode]
  refine ⟨_, _, rfl, ?_, ?_, ⟨contractTypeOf (probeState contractAddress env), ?_⟩⟩
  · split <;> simp [hbal]
  · split <;> simp [haddr]
  · split <;> simp

theorem c9_always_core_vars_witness :
    sampleEnv.code ≠ "0x" ∧
      (∃ vars fns, (fetchContractDetails true "0xCafe" sampleEnv).1 = .ok vars fns ∧
        ⟨"balance", formatEtherNat sampleEnv.balance ++ " ETH", "uint256", false⟩ ∈ vars ∧
        ⟨"address", "0xCafe", "address", true⟩ ∈ vars ∧
        ∃ ct, (⟨"contractType", ct, "string", true⟩ : ContractVariable) ∈ vars) :=
  ⟨by decide, c9_always_core_vars "0xCafe" sampleEnv (by decide)⟩

/-- C1: for every contract address with non-empty bytecode whose name,
symbol and decimals probes all settle successfully within the timeout (the
string values for name and symbol, the ethers-decoded JavaScript number for
the uint8 decimals), the output classifies the contract as ERC20 Token and
the variables list carries all three probed values formatted as returned:
the strings verbatim and the integer as provided. -/
theorem c1_erc20_classification (contractAddress : String) (env : ChainEnv)
    (sn ss : String) (d : Int) (tn ts td : Nat)
    (hcode : env.code ≠ "0x")
    (hn : env.probes "name" = ⟨.ok (.str sn), some tn⟩) (htn : tn < probeTimeoutMs)
    (hs : env.probes "symbol" = ⟨.ok (.str ss), some ts⟩) (hts : ts < probeTimeoutMs)
    (hd : env.probes "decimals" = ⟨.ok (.num d), some td⟩) (htd : td < probeTimeoutMs) :
    ∃ vars fns, (fetchContractDetails true contractAddress env).1 = .ok vars fns ∧
      ⟨"name", sn, "string", false⟩ ∈ vars ∧
      ⟨"symbol", ss, "string", false⟩ ∈ vars ∧
      ⟨"decimals", intDecimal d, "uint8", false⟩ ∈ vars ∧
      ⟨"contractType", "ERC20 Token", "string", true⟩ ∈ vars := by
  have hn' : tryFunctionResult env "name" = some (.str sn) :=
    tryFunctionResult_eq_some hn htn rfl
  have hs' : tryFunctionResult env "symbol" = some (.str ss) :=
    tryFunctionResult_eq_some hs hts rfl
  have hd' : tryFunctionResult env "decimals" = some (.num d) :=
    tryFunctionResult_eq_some hd htd rfl
  have mname : (⟨"name", sn, "string", false⟩ : ContractVariable)
      ∈ (probeState contractAddress env).stateVars := by
    unfold probeState
    apply mem_stateVars_tryFunction
    apply mem_stateVars_tryFunction
    apply mem_stateVars_tryFunction
    apply mem_stateVars_tryFunction
    rw [tryFunction_of_some _ "string" hn']
    simp [formatValue]
  have msym : (⟨"symbol", ss, "string", false⟩ : ContractVariable)
      ∈ (probeState contractAddress env).stateVars := by
    unfold probeState
    apply mem_stateVars_tryFunction
    apply mem_stateVars_tryFunction
    apply mem_stateVars_tryFunction
    rw [tryFunction_of_some _ "string" hs']
    simp [formatValue]
  have mdec : (⟨"decimals", intDecimal d, "uint8", false⟩ : ContractVariable)
      ∈ (probeState contractAddress env).stateVars := by
    unfold probeState
    apply mem_stateVars_tryFunction
    apply mem_stateVars_tryFunction
    rw [tryFunction_of_some _ "uint8" hd']
    simp [formatValue]
  have hct : contractTypeOf (probeState contractAddress env) = "ERC20 Token" := by
    apply contractTypeOf_erc20
    · unfold probeState
      apply hasDiscovered_mono
      apply hasDiscovered_mono
      apply hasDiscovered_mono
      apply hasDiscovered_mono
      exact hasDiscovered_tryFunction_self _ "string" hn'
    · unfold probeState
      apply hasDiscovered_mono
      apply hasDiscovered_mono
      apply hasDiscovered_mono
      exact hasDiscovered_tryFunction_self _ "string" hs'
    · unfold probeState
      apply hasDiscovered_mono
      apply hasDiscovered_mono
      exact hasDiscovered_tryFunction_self _ "uint8" hd'
  simp only [fetchContractDetails, if_true, if_neg hcode, hct]
  refine ⟨_, _, rfl, ?_, ?_, ?_, ?_⟩
  · split <;> simp [mname]
  · split <;> simp [msym]
  · split <;> simp [mdec]
  · split <;> simp

theorem c1_erc20_classification_witness :
    erc20Env.code ≠ "0x" ∧
      erc20Env.probes "name" = ⟨.ok (.str "Gold"), some 10⟩ ∧ 10 < probeTimeoutMs ∧
      erc20Env.probes "symbol" = ⟨.ok (.str "GLD"), some 20⟩ ∧ 20 < probeTimeoutMs ∧
      erc20Env.probes "decimals" = ⟨.ok (.num 18), some 30⟩ ∧ 30 < probeTimeoutMs ∧
      (∃ vars fns, (fetchContractDetails true "0xToken" erc20Env).1 = .ok vars fns ∧
        ⟨"name", "Gold", "string", false⟩ ∈ vars ∧
        ⟨"symbol", "GLD", "string", false⟩ ∈ vars ∧
        ⟨"decimals", intDecimal 18, "uint8", false⟩ ∈ vars ∧
        ⟨"contractType", "ERC20 Token", "string", true⟩ ∈ vars) :=
  ⟨by decide, rfl, by decide, rfl, by decide, rfl, by decide,
    c1_erc20_classification "0xToken" erc20Env "Gold" "GLD" 18 10 20 30
      (by decide) rfl (by decide) rfl (by decide) rfl (by decide)⟩

/-- C2 counterexample: at a deployed contract the introspector does not
attempt a call for each signature of the ~30-entry catalog (the balanceOf
catalog entry, among others, is never called). -/
theorem c2_probe_catalog_counterexample :
    "function balanceOf(address) view returns (uint256)" ∈ genericABI ∧
      ¬ (∀ sig ∈ genericABI,
          abiFunctionName sig ∈ (fetchContractDetails true "0xCafe" sampleEnv).2) := by
  constructor
  · decide
  · intro h
    have hb := h "function balanceOf(address) view returns (uint256)" (by decide)
    revert hb
    decide

/-- C2 as amended: for every introspected address with non-empty bytecode
the introspector attempts exactly six calls, in order name, symbol,
decimals, totalSupply, owner (each raced against an independent 1000 ms
timeout) and getDonationsCount (raced against a 500 ms timeout), never
retrying any of them; the remaining catalog signatures are not called. -/
theorem c2_probe_catalog_amended (contractAddress : String) (env : ChainEnv)
    (hcode : env.code ≠ "0x") :
    (fetchContractDetails true contractAddress env).2 =
        ["name", "symbol", "decimals", "totalSupply", "owner", "getDonationsCount"] ∧
      (∀ nm, ((fetchContractDetails true contractAddress env).2).count nm ≤ 1) ∧
      probeTimeoutMs = 1000 ∧ donationTimeoutMs = 500 := by
  have htrace : (fetchContractDetails true contractAddress env).2 = probeCallOrder := by
    simp [fetchContractDetails, hcode]
  refine ⟨htrace, ?_, rfl, rfl⟩
  intro nm
  rw [htrace]
  exact List.nodup_iff_count_le_one.mp (by decide) nm

theorem c2_probe_catalog_amended_witness :
    sampleEnv.code ≠ "0x" ∧
      ((fetchContractDetails true "0xCafe" sampleEnv).2 =
          ["name", "symbol", "decimals", "totalSupply", "owner", "getDonationsCount"] ∧
        (∀ nm, ((fetchContractDetails true "0xCafe" sampleEnv).2).count nm ≤ 1) ∧
        probeTimeoutMs = 1000 ∧ donationTimeoutMs = 500) :=
  ⟨by decide, c2_probe_catalog_amended "0xCafe" sampleEnv (by decide)⟩

/-- C6: a probe whose underlying call does not resolve within the 1 second
timeout behaves identically to one whose call reverts: the overall result is
the same, the probed function appears in neither the output variables nor
the output functions, and the introspection still completes without error. -/
theorem c6_timeout_equals_revert (contractAddress : String) (env : ChainEnv) (nm : String)
    (bT bE : ProbeBehavior)
    (hnm : nm ∈ probeCallOrder)
    (hT : ∀ t, bT.time = some t → probeTimeoutMs ≤ t)
    (hE : bE.outcome = .error ())
    (hcode : env.code ≠ "0x") :
    fetchContractDetails true contractAddress (updateProbe env nm bT) =
        fetchContractDetails true contractAddress (updateProbe env nm bE) ∧
      ∃ vars fns,
        (fetchContractDetails true contractAddress (updateProbe env nm bT)).1 = .ok vars fns ∧
          (∀ v ∈ vars, v.name ≠ nm) ∧ (∀ f ∈ fns, f.name ≠ nm) := by
  have hTnone : tryFunctionResult (updateProbe env nm bT) nm = none := by
    apply tryFunctionResult_of_not_settled
    rw [updateProbe_self]
    exact hT
  have hEnone : tryFunctionResult (updateProbe env nm bE) nm = none := by
    apply tryFunctionResult_of_error
    rw [updateProbe_self]
    exact hE
  have htfr : ∀ m, tryFunctionResult (updateProbe env nm bT) m =
      tryFunctionResult (updateProbe env nm bE) m := by
    intro m
    by_cases hm : m = nm
    · subst hm; rw [hTnone, hEnone]
    · rw [tryFunctionResult_updateProbe_ne env bT hm, tryFunctionResult_updateProbe_ne env bE hm]
  have hdon : donationDetected (updateProbe env nm bT) =
      donationDetected (updateProbe env nm bE) := by
    by_cases hgd : nm = "getDonationsCount"
    · subst hgd
      have h1 : donationDetected (updateProbe env "getDonationsCount" bT) = false := by
        apply donationDetected_of_not_settled
        intro t ht
        rw [updateProbe_self] at ht
        have := hT t ht
        unfold donationTimeoutMs
        unfold probeTimeoutMs at this
        omega
      have h2 : donationDetected (updateProbe env "getDonationsCount" bE) = false := by
        apply donationDetected_of_error
        rw [updateProbe_self]
        exact hE
      rw [h1, h2]
    · rw [donationDetected_updateProbe_ne env bT hgd, donationDetected_updateProbe_ne env bE hgd]
  refine ⟨@fetchContractDetails_congr (updateProbe env nm bT) (updateProbe env nm bE)
    rfl rfl htfr hdon true contractAddress, ?_⟩
  have h6 : ∀ x ∈ probeCallOrder, x ≠ "balance" ∧ x ≠ "address" ∧ x ≠ "contractType" := by
    decide
  obtain ⟨hnotb, hnota, hnotc⟩ := h6 nm hnm
  have hcode' : ¬((updateProbe env nm bT).code = "0x") := hcode
  simp only [fetchContractDetails, if_true, if_neg hcode']
  refine ⟨_, _, rfl, ?_, ?_⟩
  · intro v hv
    have hv2 : v ∈ (probeState contractAddress (updateProbe env nm bT)).stateVars ∨
        v.name = "contractType" := by
      split at hv
      · rcases List.mem_append.mp hv with h | h
        · rcases List.mem_append.mp h with h | h
          · exact .inl h
          · rcases List.mem_singleton.mp h with rfl; exact .inr rfl
        · rcases List.mem_singleton.mp h with rfl; exact .inr rfl
      · rcases List.mem_append.mp hv with h | h
        · exact .inl h
        · rcases List.mem_singleton.mp h with rfl; exact .inr rfl
    rcases hv2 with hv2 | hv2
    · rcases mem_stateVars_probeState contractAddress hv2 with hinit | ⟨_, hne⟩
      · simp only [initialVars, List.mem_cons, List.mem_singleton, List.not_mem_nil,
          or_false] at hinit
        rcases hinit with rfl | rfl
        · exact fun heq => hnotb heq.symm
        · exact fun heq => hnota heq.symm
      · intro heq
        rw [heq] at hne
        exact hne hTnone
    · rw [hv2]
      exact fun heq => hnotc heq.symm
  · intro f hf
    have hms := mem_fns_probeState contractAddress hf
    intro heq
    rw [heq] at hms
    exact hms.2 hTnone

theorem c6_timeout_equals_revert_witness :
    "symbol" ∈ probeCallOrder ∧
      (∀ t, (⟨Except.ok (JsValue.str "X"), none⟩ : ProbeBehavior).time = some t →
        probeTimeoutMs ≤ t) ∧
      (⟨Except.error (), some 5⟩ : ProbeBehavior).outcome = .error () ∧
      sampleEnv.code ≠ "0x" ∧
      (fetchContractDetails true "0xCafe"
            (updateProbe sampleEnv "symbol" ⟨Except.ok (JsValue.str "X"), none⟩) =
          fetchContractDetails true "0xCafe"
            (updateProbe sampleEnv "symbol" ⟨Except.error (), some 5⟩) ∧
        ∃ vars fns,
          (fetchContractDetails true "0xCafe"
              (updateProbe sampleEnv "symbol" ⟨Except.ok (JsValue.str "X"), none⟩)).1 =
            .ok vars fns ∧
            (∀ v ∈ vars, v.name ≠ "symbol") ∧ (∀ f ∈ fns, f.name ≠ "symbol")) :=
  ⟨by decide, by simp, rfl, by decide,
    c6_timeout_equals_revert "0xCafe" sampleEnv "symbol"
      ⟨Except.ok (JsValue.str "X"), none⟩ ⟨Except.error (), some 5⟩
      (by decide) (by simp) rfl (by decide)⟩

/-! ## Helper lemmas: node connector -/

theorem buildAccounts_getD (b : String → Nat) :
    ∀ (l : List String) (k i : Nat), i < l.length →
      (buildAccounts b k l).getD i defaultAccount =
        ⟨l.getD i "", hexlify (hardhatBaseKey + (k + i)), toFixed4OfWei (b (l.getD i ""))⟩ := by
  intro l
  induction l with
  | nil => intro k i h; simp at h
  | cons a rest ih =>
    intro k i h
    cases i with
    | zero => simp [buildAccounts]
    | succ j =>
      have hj : j < rest.length := by simpa using h
      have hrw : k + 1 + j = k + (j + 1) := by omega
      simpa [buildAccounts, hrw] using ih (k + 1) j hj

theorem hexlify_ne_NA (n : Nat) : hexlify n ≠ "N/A" := by
  unfold hexlify
  intro h
  have h2 := congrArg String.data h
  simp only [String.data_append] at h2
  simp at h2

/-- C10: for every account index reported by the node, including indices of
20 and beyond, the connector hook derives the displayed private key as the
fixed base key plus the index; it never bounds the index or substitutes the
placeholder N/A. -/
theorem c10_unbounded_key_derivation (configChainId : Nat) (env : NodeEnv) (i : Nat)
    (h : i < env.accounts.length) :
    ((connectToNode configChainId env).accounts.getD i defaultAccount).privateKey =
        hexlify (hardhatBaseKey + i) ∧
      ((connectToNode configChainId env).accounts.getD i defaultAccount).privateKey ≠
        "N/A" := by
  have hgd := buildAccounts_getD env.balances env.accounts 0 i h
  have hkey : ((connectToNode configChainId env).accounts.getD i defaultAccount).privateKey =
      hexlify (hardhatBaseKey + i) := by
    show (buildAccounts env.balances 0 env.accounts |>.getD i defaultAccount).privateKey = _
    rw [hgd]
    simp
  exact ⟨hkey, by rw [hkey]; exact hexlify_ne_NA _⟩

theorem c10_unbounded_key_derivation_witness :
    21 < nodeEnvMany.accounts.length ∧
      (((connectToNode 31337 nodeEnvMany).accounts.getD 21 defaultAccount).privateKey =
          hexlify (hardhatBaseKey + 21) ∧
        ((connectToNode 31337 nodeEnvMany).accounts.getD 21 defaultAccount).privateKey ≠
          "N/A") :=
  ⟨by decide, c10_unbounded_key_derivation 31337 nodeEnvMany 21 (by decide)⟩

/-- C8 counterexample: with a configured chain id of 31337 and a node whose
queried network id is 1, the connector's effective chain id is the
configured 31337, not the queried network id. -/
theorem c8_chain_id_counterexample :
    (connectToNode 31337 nodeEnv8).chainId = 31337 ∧ nodeEnv8.networkChainId = 1 ∧
      (connectToNode 31337 nodeEnv8).chainId ≠ nodeEnv8.networkChainId :=
  ⟨rfl, rfl, by decide⟩

/-- C8 as amended: the connector's effective chain id is the externally
configured chain id whenever that id is truthy (nonzero); the queried
network id is used only as a fallback when the configured id is falsy (zero,
or NaN from an unparsable configuration value). -/
theorem c8_chain_id_amended (configChainId : Nat) (env : NodeEnv) :
    (configChainId ≠ 0 → (connectToNode configChainId env).chainId = configChainId) ∧
      (configChainId = 0 → (connectToNode configChainId env).chainId = env.networkChainId) := by
  constructor <;> intro h <;> simp [connectToNode, effectiveChainId, h]

theorem c8_chain_id_amended_witness :
    (connectToNode 31337 nodeEnv8).chainId = 31337 :=
  (c8_chain_id_amended 31337 nodeEnv8).1 (by decide)

/-! ## Scanner claims -/

/-- C3 evidence: at a chain whose latest block number is 200 the scanner
examines 101 blocks, numbers 100 through 200 — the most recent 100 blocks
would be 101 through 200 — so block 100 is also examined. -/
theorem c3_scan_window_eval :
    (scannedBlockNumbers 200).length = 101 ∧ 100 ∈ scannedBlockNumbers 200 ∧
      scannedBlockNumbers 200 = (List.range 101).map (100 + ·) := by
  refine ⟨?_, ?_, rfl⟩ <;> decide

/-- C7: the scanner returns exactly the transactions of the scanned window
whose sender or receiver case-insensitively equals the target address (as a
permutation produced by the final sort), sorted by descending block number,
each carrying the timestamp of its containing block. -/
theorem c7_scanner_results (chain : ChainState) (address : String) (hwf : wfChain chain) :
    (fetchTransactions chain address).Perm
        ((windowMatches chain address).map (formatTransaction chain)) ∧
      List.Pairwise (fun a b : Transaction => b.blockNumber ≤ a.blockNumber)
        (fetchTransactions chain address) ∧
      ∀ e ∈ fetchTransactions chain address,
        e.timestamp = (chain.blocks e.blockNumber).timestamp := by
  have htrans : ∀ a b c : Transaction,
      txDescBlock a b → txDescBlock b c → txDescBlock a c := by
    intro a b c h1 h2
    simp only [txDescBlock, decide_eq_true_eq] at *
    omega
  have htotal : ∀ a b : Transaction, txDescBlock a b || txDescBlock b a := by
    intro a b
    simp only [txDescBlock]
    rcases Nat.le_total b.blockNumber a.blockNumber with h | h <;> simp [h]
  refine ⟨List.mergeSort_perm _ _, ?_, ?_⟩
  · have hs := List.sorted_mergeSort htrans htotal
      ((windowMatches chain address).map (formatTransaction chain))
    refine List.Pairwise.imp ?_ hs
    intro a b hab
    simpa [txDescBlock] using hab
  · intro e he
    have he2 : e ∈ (windowMatches chain address).map (formatTransaction chain) :=
      List.mem_mergeSort.mp he
    obtain ⟨tx, htx, rfl⟩ := List.mem_map.mp he2
    unfold windowMatches at htx
    obtain ⟨n, hn, htxn⟩ := List.mem_flatMap.mp htx
    have hbn := hwf n hn tx (List.mem_filter.mp htxn).1
    simp [formatTransaction, hbn]

theorem c7_scanner_results_witness :
    wfChain wchain ∧
      ((fetchTransactions wchain "0xALICE").Perm
          ((windowMatches wchain "0xALICE").map (formatTransaction wchain)) ∧
        List.Pairwise (fun a b : Transaction => b.blockNumber ≤ a.blockNumber)
          (fetchTransactions wchain "0xALICE") ∧
        ∀ e ∈ fetchTransactions wchain "0xALICE",
          e.timestamp = (wchain.blocks e.blockNumber).timestamp) :=
  ⟨by decide, c7_scanner_results wchain "0xALICE" (by decide)⟩
